import Mathlib

/-
Verification development for the mysql-mimic protocol engine
(src/mysql_mimic/connection.py and src/mysql_mimic/server.py).

The embedding is a shallow one: the async methods of Connection become pure
functions over an explicit connection state.  Stream writes, sequence resets
and session calls become events in a trace; stream reads consume structured
client messages from an input list (byte-level packet parsing lives in
packets.py, outside the core, so client packets are modelled structurally).
Auth plugins are external collaborators (auth.py): a plugin is modelled by
its name, its required client plugin name, and the decision sequences its
start/asend dialogue produces, as described in section 4.4 and section 9 of
the spec ("plugins are polymorphic over {start(info?), advance(state, info)}
returning Challenge(bytes) | Success(name) | Forbidden(msg)").
-/

namespace MysqlMimic

abbrev Bytes := List Nat

/-- CLIENT_DEPRECATE_EOF capability bit (1 <<< 24), per the MySQL protocol. -/
def CLIENT_DEPRECATE_EOF : Nat := 16777216

/-- ServerStatus.SERVER_STATUS_CURSOR_EXISTS (0x40). -/
def SERVER_STATUS_CURSOR_EXISTS : Nat := 64

/-- ServerStatus.SERVER_STATUS_LAST_ROW_SENT (0x80). -/
def SERVER_STATUS_LAST_ROW_SENT : Nat := 128

/-- Connection._MAX_PREPARED_STMT_ID = 2 ** 32. -/
def MAX_PREPARED_STMT_ID : Nat := 4294967296

/-- Error codes used by connection.py (errors.ErrorCode). -/
inductive ErrCode
  | userDoesNotExist
  | accessDenied
  | handshakeError
  | unknownProcedure
  | unknownComError
  | unknownError
deriving DecidableEq

/-- A decision produced by an auth plugin dialogue: more challenge bytes,
Success(authenticated_as) or Forbidden(msg) (spec section 4.4 / 9). -/
inductive Decision
  | moreData (data : Bytes)
  | success (authenticated_as : Option String)
  | forbidden (msg : Option String)
deriving DecidableEq

/-- User record returned by the identity provider (spec section 6). -/
structure UserM where
  name : String
  auth_string : Option String
  auth_plugin : Option String
deriving DecidableEq

/-- Modelled from the spec: an auth plugin (auth.py is not under src/).
It has a name and a required client plugin name; its interactive behaviour
is the decision sequence of its start/asend dialogue.  start() with no
AuthInfo yields startNoInfo.1 first and then the startNoInfo.2 items on
each asend; start(auth_info) likewise with startWithInfo.  The code only
inspects decisions through their tag and payload, so a decision script is a
faithful model of any single dialogue. -/
structure AuthPluginM where
  name : String
  client_plugin_name : Option String
  startNoInfo : Decision × List Decision
  startWithInfo : Decision × List Decision
deriving DecidableEq

/-- Identity provider collaborator (spec section 6). -/
structure IdP where
  get_default_plugin : AuthPluginM
  get_user : String → Option UserM
  get_plugin : String → Option AuthPluginM

/-- Packets written by the connection.  Fields only carry what connection.py
itself chooses; the byte encoding (packets.py) is outside the core. -/
inductive Packet
  | handshakeV10 (connection_id : Nat) (auth_data : Bytes) (auth_plugin_name : String)
  | okP (flags : Nat)
  | okEofP (affected_rows : Nat) (warnings : Nat) (flags : Nat)
  | eofP (warnings : Nat) (flags : Nat)
  | errP (code : ErrCode) (msg : String)
  | authSwitchRequest (plugin_name : String) (plugin_provided_data : Bytes)
  | authMoreData (data : Bytes)
  | columnCount (n : Nat)
  | colDef (name : String)
  | prepareOk (stmt_id : Nat) (num_params : Nat)
  | binaryRow (row : List Nat)
  | textRow (row : List Nat)
  | uintLen (n : Nat)
deriving DecidableEq

/-- Prepared statement record (prepared.py is not under src/; the fields are
those connection.py reads and writes, as listed in spec section 3).
A cursor is the list of still-unsent binary row packets. -/
structure PreparedStatement where
  stmt_id : Nat
  sql : String
  num_params : Nat
  param_buffers : Option (List (Nat × Bytes))
  cursor : Option (List Packet)
deriving DecidableEq

/-- Trace events: a stream write, a sequence reset, the session collaborator
calls, and a query handed to the admin parser / session (spec section 4.7). -/
inductive Event
  | write (p : Packet)
  | resetSeq
  | sessionInit
  | sessionClose
  | query (sql : String) (params : List Bytes)
deriving DecidableEq

/-- Parsed HandshakeResponse41 (packets.parse_handshake_response_41 is not
under src/; the response is modelled structurally, with the negotiated
capability intersection taken by the connection phase per spec section 4.3). -/
structure HandshakeResponse where
  capabilities : Nat
  max_packet_size : Nat
  database : Option String
  client_plugin : Option String
  connect_attrs : List (String × String)
  zstd_compression_level : Nat
  username : String
  client_charset : Nat
  auth_response : Bytes
deriving DecidableEq

/-- Parsed COM_CHANGE_USER payload (packets.parse_com_change_user is not
under src/; modelled structurally from its uses in handle_change_user). -/
structure ComChangeUser where
  database : Option String
  username : String
  client_charset : Option Nat
  connect_attrs : List (String × String)
  auth_response : Bytes
  client_plugin : Option String
deriving DecidableEq

/-- A command-phase command, already parsed (command dispatch is on the
first payload byte in command_phase; the payload parsers are in packets.py,
outside the core, so commands are modelled structurally). -/
inductive Command
  | query (sql : String)
  | stmtPrepare (sql : String)
  | stmtSendLongData (stmt_id : Nat) (param_id : Nat) (data : Bytes)
  | stmtExecute (stmt_id : Nat) (use_cursor : Bool) (params : List Bytes)
  | stmtFetch (stmt_id : Nat) (num_rows : Nat)
  | stmtReset (stmt_id : Nat)
  | stmtClose (stmt_id : Nat)
  | ping
  | changeUser (cu : ComChangeUser)
  | resetConnection
  | debug
  | quit
  | unknown (code : Nat)
deriving DecidableEq

/-- One message from the client: a handshake response, a command, or raw
bytes (an auth response read inside the authenticate dialogue). -/
inductive ClientMsg
  | hs (r : HandshakeResponse)
  | cmd (c : Command)
  | raw (b : Bytes)
deriving DecidableEq

/-- Column descriptor of a result set (results.py is not under src/; fields
per spec section 3). -/
structure ColumnM where
  name : String
  ctype : Nat
  charset : Nat
deriving DecidableEq

/-- Result set (results.py is not under src/; columns plus rows, spec
section 3). -/
structure RS where
  columns : List ColumnM
  rows : List (List Nat)
deriving DecidableEq

/-- Connection state: the mutable attributes of Connection (with the admin
and system-variables objects flattened into the fields connection.py
touches through them).  prepared_stmt_seq is represented by the next value
of the modular counter. -/
structure Conn where
  connection_id : Nat
  handshake_auth_data : Option Bytes
  handshake_auth_plugin : Option String
  server_capabilities : Nat
  capabilities : Nat
  status_flags : Nat
  max_packet_size : Nat
  client_plugin_name : Option String
  client_connect_attrs : List (String × String)
  zstd_compression_level : Nat
  next_stmt_id : Nat
  prepared_stmts : List (Nat × PreparedStatement)
  vars_server_charset : Nat
  vars_client_charset : Nat
  vars_external_user : Option String
  admin_database : Option String
  admin_username : Option String
deriving DecidableEq

/-- Default charset ordinal of SystemVariables (variables.py is not under
src/; the concrete value is irrelevant to the claims). -/
def DEFAULT_CHARSET : Nat := 255

/-- Mirrors Connection.__init__ (connection.py lines 31-64). -/
def Conn.mk0 (connection_id : Nat) (server_capabilities : Nat) : Conn :=
  { connection_id := connection_id
    handshake_auth_data := none
    handshake_auth_plugin := none
    server_capabilities := server_capabilities
    capabilities := 0
    status_flags := 0
    max_packet_size := 0
    client_plugin_name := none
    client_connect_attrs := []
    zstd_compression_level := 0
    next_stmt_id := 0
    prepared_stmts := []
    vars_server_charset := DEFAULT_CHARSET
    vars_client_charset := DEFAULT_CHARSET
    vars_external_user := none
    admin_database := none
    admin_username := none }

/-- Association-list lookup (dict access self.prepared_stmts[stmt_id]). -/
def alookup {α : Type} : List (Nat × α) → Nat → Option α
  | [], _ => none
  | (j, w) :: t, i => if j = i then some w else alookup t i

/-- Association-list update (dict item assignment; keeps keys unique). -/
def aset {α : Type} : List (Nat × α) → Nat → α → List (Nat × α)
  | [], i, v => [(i, v)]
  | (j, w) :: t, i, v => if j = i then (i, v) :: t else (j, w) :: aset t i v

/-- Association-list removal (dict pop with a default: no error). -/
def aerase {α : Type} : List (Nat × α) → Nat → List (Nat × α)
  | [], _ => []
  | (j, w) :: t, i => if j = i then t else (j, w) :: aerase t i

/-- Connection.deprecate_eof (connection.py lines 533-534). -/
def Conn.deprecate_eof (c : Conn) : Bool :=
  Nat.land c.capabilities CLIENT_DEPRECATE_EOF != 0

/-- Connection.ok (connection.py lines 497-502): an OK packet carrying the
connection status flags. -/
def Conn.okPkt (c : Conn) : Packet :=
  Packet.okP c.status_flags

/-- Connection.eof (connection.py lines 504-509). -/
def Conn.eofPkt (c : Conn) (warnings : Nat) (flags : Nat) : Packet :=
  Packet.eofP warnings (Nat.lor c.status_flags flags)

/-- Connection.ok_or_eof (connection.py lines 511-526). -/
def Conn.ok_or_eof (c : Conn) (affected_rows : Nat) (warnings : Nat) (flags : Nat) : Packet :=
  if c.deprecate_eof then
    Packet.okEofP affected_rows warnings (Nat.lor c.status_flags flags)
  else
    Packet.eofP warnings (Nat.lor c.status_flags flags)

/-- Modelled from the spec: prepared.REGEX_PARAM (prepared.py is not under
src/) counts the parameter markers of the SQL; per spec section 9 note (c)
the detection is a coarse regex that does not respect quoting, modelled as
counting the question-mark characters of the SQL text. -/
def REGEX_PARAM_count (sql : String) : Nat :=
  (sql.toList.filter (fun ch => ch == '?')).length

/-- Message of MysqlError in get_stmt (connection.py line 486). -/
def unknownStmtMsg (stmt_id : Nat) : String :=
  "Unknown statement: " ++ toString stmt_id

/-- Message written for an unknown user (connection.py lines 170-177). -/
def unknownUserMsg (username : String) : String :=
  "User " ++ username ++ " does not exist"

/-- Message of the ACCESS_DENIED_ERROR packet (connection.py line 238):
decision.msg or a default naming the user (Python or-truthiness: the empty
string also falls back to the default). -/
def forbiddenMsg (m : Option String) (user : UserM) : String :=
  match m with
  | some s => if s = "" then "Access denied for user " ++ user.name else s
  | none => "Access denied for user " ++ user.name

/-- Message of MysqlError for an unsupported command byte
(connection.py lines 280-283). -/
def unsupportedMsg (code : Nat) : String :=
  "Unsupported Command: " ++ toString code

/-- Message used for the HANDSHAKE_ERROR packet in start (the exception
text itself is not tracked by the model). -/
def handshakeFailMsg : String := "handshake failed"

/-- Exceptions raised inside a command iteration: a typed MysqlError or any
other exception (connection.py lines 285-290). -/
inductive MErr
  | mysql (code : ErrCode) (msg : String)
  | other (msg : String)
deriving DecidableEq

/-- Result of a command handler: emitted events, the connection state after
it (Python mutations persist even when an exception follows them), and the
exception it raised, if any. -/
structure HRes where
  events : List Event
  conn : Conn
  err : Option MErr
deriving DecidableEq

/-- Result of authenticate: emitted events, the state on normal return
(none when the coroutine raised), and how many client messages were read. -/
structure ARes where
  events : List Event
  conn : Option Conn
  consumed : Nat
deriving DecidableEq

/-- Chooses user_plugin in authenticate (connection.py lines 179-182):
the plugin named by the user record, falling back to the default plugin. -/
def resolveUserPlugin (ip : IdP) (user : UserM) : AuthPluginM :=
  match ip.get_plugin (user.auth_plugin.getD "") with
  | some p => p
  | none => ip.get_default_plugin

/-- The while-loop of authenticate (connection.py lines 226-230): while the
decision is challenge bytes, write AuthMoreData, read an auth response, and
resume the plugin dialogue (which consumes the next script entry).  Returns
the terminal decision, or none when a read fails (ConnectionClosed) or the
dialogue is exhausted (StopAsyncIteration). -/
def authLoop : Decision → List Decision → List ClientMsg → List Event × Option Decision × Nat
  | Decision.success u, _, _ => ([], some (Decision.success u), 0)
  | Decision.forbidden m, _, _ => ([], some (Decision.forbidden m), 0)
  | Decision.moreData b, script, input =>
    match input with
    | ClientMsg.raw _ :: rest =>
      match script with
      | [] => ([Event.write (Packet.authMoreData b)], none, 1)
      | d :: script' =>
        let r := authLoop d script' rest
        (Event.write (Packet.authMoreData b) :: r.1, r.2.1, r.2.2 + 1)
    | _ => ([Event.write (Packet.authMoreData b)], none, 0)

/-- The tail of authenticate from the while-loop on (connection.py lines
226-241): drive the loop, then write OK and record the authenticated user
on Success, or write the ACCESS_DENIED_ERROR packet on Forbidden. -/
def authFinish (c : Conn) (user : UserM) (d : Decision) (script : List Decision)
    (input : List ClientMsg) : ARes :=
  match authLoop d script input with
  | (ev, some (Decision.success u), n) =>
    { events := ev ++ [Event.write c.okPkt]
      conn := some { c with admin_username := u }
      consumed := n }
  | (ev, some (Decision.forbidden m), n) =>
    { events := ev ++ [Event.write (Packet.errP ErrCode.accessDenied (forbiddenMsg m user))]
      conn := some c
      consumed := n }
  | (ev, _, n) => { events := ev, conn := none, consumed := n }

/-- Connection.authenticate (connection.py lines 159-241).  auth_state is
the pending dialogue of the optimistically started handshake plugin; the
fast path resumes it, the direct path starts the user plugin with the
AuthInfo, and the mismatch path starts it bare and, when it yields
challenge bytes and names a required client plugin, writes an
AuthSwitchRequest and reads one auth response before resuming. -/
def authenticate (ip : IdP) (c : Conn) (username : String) (auth_response : Bytes)
    (client_plugin_name : Option String) (connect_attrs : List (String × String))
    (auth_state : Option (List Decision)) (server_plugin : Option AuthPluginM)
    (input : List ClientMsg) : ARes :=
  match ip.get_user username with
  | none =>
    { events := [Event.write (Packet.errP ErrCode.userDoesNotExist (unknownUserMsg username))]
      conn := some c
      consumed := 0 }
  | some user =>
    let user_plugin := resolveUserPlugin ip user
    match c.handshake_auth_plugin with
    | none => { events := [], conn := none, consumed := 0 }
    | some _ =>
      let fast : Bool :=
        match server_plugin with
        | some sp =>
          (sp.client_plugin_name.isNone || sp.client_plugin_name == client_plugin_name)
            && sp.name == user_plugin.name
        | none => false
      if fast then
        match auth_state with
        | none => { events := [], conn := none, consumed := 0 }
        | some [] => { events := [], conn := none, consumed := 0 }
        | some (d :: script) => authFinish c user d script input
      else if user_plugin.client_plugin_name.isNone
          || user_plugin.client_plugin_name == client_plugin_name then
        authFinish c user user_plugin.startWithInfo.1 user_plugin.startWithInfo.2 input
      else
        match user_plugin.client_plugin_name, user_plugin.startNoInfo.1 with
        | some cpn, Decision.moreData b =>
          if cpn = "" then
            authFinish c user user_plugin.startNoInfo.1 user_plugin.startNoInfo.2 input
          else
            match input with
            | ClientMsg.raw _ :: rest =>
              match user_plugin.startNoInfo.2 with
              | [] =>
                { events := [Event.write (Packet.authSwitchRequest cpn b)]
                  conn := none
                  consumed := 1 }
              | d2 :: script' =>
                let r := authFinish c user d2 script' rest
                { events := Event.write (Packet.authSwitchRequest cpn b) :: r.events
                  conn := r.conn
                  consumed := r.consumed + 1 }
            | _ =>
              { events := [Event.write (Packet.authSwitchRequest cpn b)]
                conn := none
                consumed := 0 }
        | _, _ =>
          authFinish c user user_plugin.startNoInfo.1 user_plugin.startNoInfo.2 input

/-- External collaborators of a connection: the identity provider and the
query resolution of spec section 4.7 (admin parser plus session.query,
both outside the core); q returns none when the resolved result set is
falsy, in which case the connection answers with a plain OK. -/
structure Env where
  ip : IdP
  q : String → List Bytes → Option RS

/-- Result of the connection phase: emitted events, and on normal return
the new state plus the number of client messages consumed (none when an
exception was raised). -/
structure CPRes where
  events : List Event
  result : Option (Conn × Nat)
deriving DecidableEq

/-- Connection.connection_phase (connection.py lines 96-134): start the
default plugin optimistically, write HandshakeV10, read and record the
HandshakeResponse41 (negotiated capabilities are the server-client
intersection, spec section 4.3), run authenticate with the pending
dialogue, and reset the sequence counter. -/
def connection_phase (env : Env) (c : Conn) (input : List ClientMsg) : CPRes :=
  let p := env.ip.get_default_plugin
  match p.startNoInfo.1 with
  | Decision.moreData auth_data =>
    let c1 := { c with
      handshake_auth_data := some auth_data
      handshake_auth_plugin := some p.name }
    let ev0 := [Event.write (Packet.handshakeV10 c1.connection_id auth_data p.name)]
    match input with
    | ClientMsg.hs r :: rest =>
      let c2 := { c1 with
        capabilities := Nat.land c1.server_capabilities r.capabilities
        max_packet_size := r.max_packet_size
        admin_database := r.database
        client_plugin_name := r.client_plugin
        client_connect_attrs := r.connect_attrs
        zstd_compression_level := r.zstd_compression_level
        vars_external_user := some r.username
        vars_client_charset := r.client_charset }
      let a := authenticate env.ip c2 r.username r.auth_response r.client_plugin
        r.connect_attrs (some p.startNoInfo.2) (some p) rest
      match a.conn with
      | none => { events := ev0 ++ a.events, result := none }
      | some c3 =>
        { events := ev0 ++ a.events ++ [Event.resetSeq]
          result := some (c3, a.consumed + 1) }
    | _ => { events := ev0, result := none }
  | _ => { events := [], result := none }

/-- Connection.get_stmt (connection.py lines 483-486). -/
def get_stmt (c : Conn) (stmt_id : Nat) : Except MErr PreparedStatement :=
  match alookup c.prepared_stmts stmt_id with
  | some s => Except.ok s
  | none => Except.error (MErr.mysql ErrCode.unknownProcedure (unknownStmtMsg stmt_id))

/-- Connection.com_stmt_prepare_response (connection.py lines 560-569):
COM_STMT_PREPARE_OK, then one parameter column definition per parameter
and an EOF packet whenever num_params is nonzero. -/
def com_stmt_prepare_response (c : Conn) (stmt : PreparedStatement) : List Packet :=
  Packet.prepareOk stmt.stmt_id stmt.num_params ::
    (if stmt.num_params ≠ 0 then
      List.replicate stmt.num_params (Packet.colDef "?") ++ [c.eofPkt 0 0]
    else [])

/-- Connection.handle_stmt_prepare (connection.py lines 348-367): decode
the SQL, draw the next id from the modular statement sequence, count the
parameters, register the statement and write the prepare response. -/
def handle_stmt_prepare (c : Conn) (sql : String) : HRes :=
  let stmt_id := c.next_stmt_id
  let num_params := REGEX_PARAM_count sql
  let stmt : PreparedStatement :=
    { stmt_id := stmt_id, sql := sql, num_params := num_params
      param_buffers := none, cursor := none }
  let c1 := { c with
    next_stmt_id := (c.next_stmt_id + 1) % MAX_PREPARED_STMT_ID
    prepared_stmts := aset c.prepared_stmts stmt_id stmt }
  { events := (com_stmt_prepare_response c1 stmt).map Event.write
    conn := c1
    err := none }

/-- Connection.handle_stmt_send_long_data (connection.py lines 369-382):
append the payload to the buffer of the addressed parameter; no response. -/
def handle_stmt_send_long_data (c : Conn) (stmt_id : Nat) (param_id : Nat)
    (data : Bytes) : HRes :=
  match get_stmt c stmt_id with
  | Except.error e => { events := [], conn := c, err := some e }
  | Except.ok stmt =>
    let bufs := stmt.param_buffers.getD []
    let buffer := (alookup bufs param_id).getD []
    let stmt' := { stmt with param_buffers := some (aset bufs param_id (buffer ++ data)) }
    { events := []
      conn := { c with prepared_stmts := aset c.prepared_stmts stmt_id stmt' }
      err := none }

/-- Modelled from the spec: the parameter values seen by a STMT_EXECUTE
(packets.parse_com_stmt_execute is not under src/).  Per spec section 4.5
the parse uses the statement parameter count and the current long-data
buffers: a parameter with an accumulated buffer takes the buffer, the
others take the value carried in the packet.  k is the index offset. -/
def paramValue (buffers : Option (List (Nat × Bytes))) (k : Nat) (v : Bytes) : Bytes :=
  match buffers with
  | some bufs => (alookup bufs k).getD v
  | none => v

/-- See resolveParams; k is the index of the first element of the list. -/
def resolveParamsAux (buffers : Option (List (Nat × Bytes))) :
    Nat → List Bytes → List Bytes
  | _, [] => []
  | k, v :: rest => paramValue buffers k v :: resolveParamsAux buffers (k + 1) rest

/-- The resolved parameter list of a STMT_EXECUTE (see resolveParamsAux). -/
def resolveParams (buffers : Option (List (Nat × Bytes))) (packetParams : List Bytes) :
    List Bytes :=
  resolveParamsAux buffers 0 packetParams

/-- Connection.handle_stmt_execute (connection.py lines 384-434): parse
(which looks the statement up and resolves the parameters against the
long-data buffers), clear param_buffers, run the query, then write OK for
a falsy result set, or the column block followed by either a cursor
registration with CURSOR_EXISTS or the inline binary rows. -/
def handle_stmt_execute (env : Env) (c : Conn) (stmt_id : Nat) (use_cursor : Bool)
    (packetParams : List Bytes) : HRes :=
  match get_stmt c stmt_id with
  | Except.error e => { events := [], conn := c, err := some e }
  | Except.ok stmt =>
    let params := resolveParams stmt.param_buffers packetParams
    let stmt1 := { stmt with param_buffers := none }
    let c1 := { c with prepared_stmts := aset c.prepared_stmts stmt_id stmt1 }
    let ev0 := [Event.query stmt.sql params]
    match env.q stmt.sql params with
    | none => { events := ev0 ++ [Event.write c1.okPkt], conn := c1, err := none }
    | some rs =>
      let evCols := Event.write (Packet.uintLen rs.columns.length) ::
        rs.columns.map (fun col => Event.write (Packet.colDef col.name))
      let rows := rs.rows.map Packet.binaryRow
      if use_cursor then
        let stmt2 := { stmt1 with cursor := some rows }
        let c2 := { c1 with prepared_stmts := aset c1.prepared_stmts stmt_id stmt2 }
        { events := ev0 ++ evCols ++
            [Event.write (c2.ok_or_eof 0 0 SERVER_STATUS_CURSOR_EXISTS)]
          conn := c2
          err := none }
      else
        let evEof := if ¬ c1.deprecate_eof then [Event.write (c1.eofPkt 0 0)] else []
        { events := ev0 ++ evCols ++ evEof ++ rows.map Event.write ++
            [Event.write (c1.ok_or_eof 0 0 0)]
          conn := c1
          err := none }

/-- Connection.handle_stmt_fetch (connection.py lines 436-459): send at
most num_rows packets from the cursor, then an OK-or-EOF carrying
LAST_ROW_SENT when fewer than num_rows rows were sent (count < num_rows),
and CURSOR_EXISTS otherwise.  A missing cursor fails the assert. -/
def handle_stmt_fetch (c : Conn) (stmt_id : Nat) (num_rows : Nat) : HRes :=
  match get_stmt c stmt_id with
  | Except.error e => { events := [], conn := c, err := some e }
  | Except.ok stmt =>
    match stmt.cursor with
    | none => { events := [], conn := c, err := some (MErr.other "assert stmt.cursor") }
    | some rows =>
      let sent := rows.take num_rows
      let stmt' := { stmt with cursor := some (rows.drop num_rows) }
      let c1 := { c with prepared_stmts := aset c.prepared_stmts stmt_id stmt' }
      { events := sent.map Event.write ++
          [Event.write (c1.ok_or_eof 0 0
            (if sent.length < num_rows then SERVER_STATUS_LAST_ROW_SENT
             else SERVER_STATUS_CURSOR_EXISTS))]
        conn := c1
        err := none }

/-- Connection.handle_stmt_reset (connection.py lines 461-472). -/
def handle_stmt_reset (c : Conn) (stmt_id : Nat) : HRes :=
  match get_stmt c stmt_id with
  | Except.error e => { events := [], conn := c, err := some e }
  | Except.ok stmt =>
    let stmt' := { stmt with param_buffers := none, cursor := none }
    { events := [Event.write c.okPkt]
      conn := { c with prepared_stmts := aset c.prepared_stmts stmt_id stmt' }
      err := none }

/-- Connection.handle_stmt_close (connection.py lines 474-481): pop with a
default; an unknown id is silently ignored and nothing is written. -/
def handle_stmt_close (c : Conn) (stmt_id : Nat) : HRes :=
  { events := []
    conn := { c with prepared_stmts := aerase c.prepared_stmts stmt_id }
    err := none }

/-- Connection.text_resultset (connection.py lines 536-558). -/
def text_resultset (c : Conn) (rs : RS) : List Packet :=
  Packet.columnCount rs.columns.length ::
    rs.columns.map (fun col => Packet.colDef col.name) ++
    (if ¬ c.deprecate_eof then [c.eofPkt 0 0] else []) ++
    rs.rows.map Packet.textRow ++
    [c.ok_or_eof rs.rows.length 0 0]

/-- Connection.handle_query (connection.py lines 326-346). -/
def handle_query (env : Env) (c : Conn) (sql : String) : HRes :=
  match env.q sql [] with
  | none => { events := [Event.query sql [], Event.write c.okPkt], conn := c, err := none }
  | some rs =>
    { events := Event.query sql [] :: (text_resultset c rs).map Event.write
      conn := c
      err := none }

/-- The state updates handle_change_user performs before authenticating
(connection.py lines 143-148): record the new database and external user,
and the client charset and connect attrs when supplied (Python truthiness:
a missing charset or an empty attrs mapping leaves the old value). -/
def changeUserState (c : Conn) (cu : ComChangeUser) : Conn :=
  let c1 := { c with
    admin_database := cu.database
    vars_external_user := some cu.username }
  let c2 := match cu.client_charset with
    | some ch => { c1 with vars_client_charset := ch }
    | none => c1
  if cu.connect_attrs ≠ [] then { c2 with client_connect_attrs := cu.connect_attrs }
  else c2

/-- Connection.handle_change_user (connection.py lines 136-157): apply the
state updates, re-run authenticate with no fast path, then call
session.init.  Returns the handler result plus the messages read. -/
def handle_change_user (env : Env) (c : Conn) (cu : ComChangeUser)
    (input : List ClientMsg) : HRes × Nat :=
  let c3 := changeUserState c cu
  let a := authenticate env.ip c3 cu.username cu.auth_response cu.client_plugin
    cu.connect_attrs none none input
  match a.conn with
  | none => ({ events := a.events, conn := c3, err := some (MErr.other "auth") }, a.consumed)
  | some c4 => ({ events := a.events ++ [Event.sessionInit], conn := c4, err := none }, a.consumed)

/-- Result of dispatching one command (before the except/finally wrapper):
events, post state, exception, messages consumed, and the COM_QUIT flag. -/
structure StepRes where
  events : List Event
  conn : Conn
  err : Option MErr
  consumed : Nat
  quit : Bool
deriving DecidableEq

/-- Lift a simple handler result into a StepRes. -/
def StepRes.ofH (r : HRes) : StepRes :=
  { events := r.events, conn := r.conn, err := r.err, consumed := 0, quit := false }

/-- The command dispatch of Connection.command_phase (connection.py lines
252-283): one branch per command byte, an UNKNOWN_COM_ERROR for an
unrecognised byte, and a return marker for COM_QUIT. -/
def execCommand (env : Env) (c : Conn) (cmd : Command) (input : List ClientMsg) : StepRes :=
  match cmd with
  | Command.query sql => StepRes.ofH (handle_query env c sql)
  | Command.stmtPrepare sql => StepRes.ofH (handle_stmt_prepare c sql)
  | Command.stmtSendLongData sid pid d => StepRes.ofH (handle_stmt_send_long_data c sid pid d)
  | Command.stmtExecute sid uc pp => StepRes.ofH (handle_stmt_execute env c sid uc pp)
  | Command.stmtFetch sid n => StepRes.ofH (handle_stmt_fetch c sid n)
  | Command.stmtReset sid => StepRes.ofH (handle_stmt_reset c sid)
  | Command.stmtClose sid => StepRes.ofH (handle_stmt_close c sid)
  | Command.ping =>
    { events := [Event.write c.okPkt], conn := c, err := none, consumed := 0, quit := false }
  | Command.changeUser cu =>
    let r := handle_change_user env c cu input
    { events := r.1.events, conn := r.1.conn, err := r.1.err, consumed := r.2, quit := false }
  | Command.resetConnection =>
    { events := [Event.write c.okPkt], conn := c, err := none, consumed := 0, quit := false }
  | Command.debug =>
    { events := [Event.write c.okPkt], conn := c, err := none, consumed := 0, quit := false }
  | Command.quit =>
    { events := [], conn := c, err := none, consumed := 0, quit := true }
  | Command.unknown code =>
    { events := [], conn := c
      err := some (MErr.mysql ErrCode.unknownComError (unsupportedMsg code))
      consumed := 0, quit := false }

/-- One iteration of the command-phase loop. -/
structure IterOut where
  events : List Event
  conn : Conn
  consumed : Nat
  quit : Bool
deriving DecidableEq

/-- One command-phase iteration (connection.py lines 251-292): dispatch the
command; a MysqlError writes an ERR with its code, any other exception
writes a generic ERR, and in every case the finally block resets the
sequence counter at the end of the iteration. -/
def commandIter (env : Env) (c : Conn) (cmd : Command) (input : List ClientMsg) : IterOut :=
  let s := execCommand env c cmd input
  let errEv := match s.err with
    | none => []
    | some (MErr.mysql code msg) => [Event.write (Packet.errP code msg)]
    | some (MErr.other msg) => [Event.write (Packet.errP ErrCode.unknownError msg)]
  { events := s.events ++ errEv ++ [Event.resetSeq]
    conn := s.conn
    consumed := s.consumed
    quit := s.quit }

/-- The command-phase read loop (connection.py lines 243-292): read a
packet (an exhausted input is a ConnectionClosed, ending the loop), run
one iteration, stop on COM_QUIT.  Byte-level command parsing happens in
packets.py, outside the core, so a non-command message read here is
dispatched as an unsupported command.  The fuel argument only bounds the
recursion; every iteration consumes at least the message it read, so
a fuel of the input length is never exhausted. -/
def command_phase_fuel (env : Env) : Nat → Conn → List ClientMsg → List Event
  | 0, _, _ => []
  | _ + 1, _, [] => []
  | fuel + 1, c, m :: rest =>
    let cmd := match m with
      | ClientMsg.cmd cd => cd
      | _ => Command.unknown 0
    let it := commandIter env c cmd rest
    if it.quit then it.events
    else it.events ++ command_phase_fuel env fuel it.conn (rest.drop it.consumed)

/-- Connection.command_phase on a finite client input. -/
def command_phase (env : Env) (c : Conn) (input : List ClientMsg) : List Event :=
  command_phase_fuel env (input.length + 1) c input

/-- Connection.start (connection.py lines 82-94): run the connection phase
and session.init; any exception there writes an ERR with HANDSHAKE_ERROR
and re-raises (the command phase is never entered); otherwise run the
command phase and close the session. -/
def start (env : Env) (c : Conn) (input : List ClientMsg) : List Event :=
  let cp := connection_phase env c input
  match cp.result with
  | none => cp.events ++ [Event.write (Packet.errP ErrCode.handshakeError handshakeFailMsg)]
  | some (c1, n) =>
    cp.events ++ [Event.sessionInit] ++ command_phase env c1 (input.drop n)
      ++ [Event.sessionClose]

/-- Python keyword-argument binding: a call f(k1=v1, ..., kn=vn) succeeds
iff every keyword names a declared parameter and every parameter without a
default value is supplied; otherwise it raises TypeError.  Parameters are
(name, has-default) pairs, self excluded. -/
def kwCallOk (params : List (String × Bool)) (kwargs : List String) : Bool :=
  kwargs.all (fun k => params.any (fun p => p.1 == k))
    && params.all (fun p => p.2 || kwargs.any (fun k => k == p.1))

/-- The parameters of Connection.__init__ (connection.py lines 31-38):
stream, connection_id, session and identity_provider are required,
server_capabilities has a default. -/
def Connection_init_params : List (String × Bool) :=
  [("stream", false), ("connection_id", false), ("session", false),
   ("identity_provider", false), ("server_capabilities", true)]

/-- The keyword arguments MysqlServer._client_connected_cb passes to the
Connection constructor (server.py lines 64-71). -/
def client_connected_cb_kwargs : List String :=
  ["stream", "session", "server_capabilities", "connection_id", "auth_plugins"]

/-- A STMT_PREPARE or STMT_CLOSE command, the alphabet of claim C2. -/
inductive PCCmd
  | prep (sql : String)
  | close (stmt_id : Nat)
deriving DecidableEq

/-- One prepare/close step on the connection, together with the freshness
of the allocation: for a prepare, whether the id handed out by the
sequence (c.next_stmt_id, the id handle_stmt_prepare registers) is absent
from the registry at allocation time. -/
def pcStep (c : Conn) : PCCmd → Conn × Bool
  | PCCmd.prep sql =>
    ((handle_stmt_prepare c sql).conn, (alookup c.prepared_stmts c.next_stmt_id).isNone)
  | PCCmd.close stmt_id => ((handle_stmt_close c stmt_id).conn, true)

/-- Run a sequence of prepare/close commands, conjoining freshness of every
allocation made along the way. -/
def runPC (c : Conn) : List PCCmd → Conn × Bool
  | [] => (c, true)
  | cmd :: rest =>
    let s := pcStep c cmd
    let r := runPC s.1 rest
    (r.1, s.2 && r.2)

/-- Number of STMT_PREPARE commands in a prepare/close sequence. -/
def countPreps : List PCCmd → Nat
  | [] => 0
  | PCCmd.prep _ :: rest => countPreps rest + 1
  | PCCmd.close _ :: rest => countPreps rest

/-- Left fold of handle_stmt_send_long_data over a list of payloads, all
for the same statement and parameter. -/
def applySends (c : Conn) (stmt_id : Nat) (param_id : Nat) : List Bytes → Conn
  | [] => c
  | d :: rest => applySends (handle_stmt_send_long_data c stmt_id param_id d).conn stmt_id param_id rest

/-- Concatenation of a list of byte strings. -/
def concatBytes : List Bytes → Bytes
  | [] => []
  | d :: rest => d ++ concatBytes rest

/-- A trust-all plugin fixture: the handshake dialogue yields a nonce and
then Success, and a fresh start with AuthInfo succeeds at once. -/
def pluginW : AuthPluginM :=
  { name := "gullible"
    client_plugin_name := none
    startNoInfo := (Decision.moreData [0], [Decision.success (some "u")])
    startWithInfo := (Decision.success (some "u"), []) }

/-- A user record fixture. -/
def userW (u : String) : UserM :=
  { name := u, auth_string := none, auth_plugin := none }

/-- Identity provider fixture that knows every user. -/
def ipW : IdP :=
  { get_default_plugin := pluginW
    get_user := fun u => some (userW u)
    get_plugin := fun _ => none }

/-- Environment fixture: every query resolves to a falsy result set. -/
def envW : Env := { ip := ipW, q := fun _ _ => none }

/-- Identity provider fixture that knows no user. -/
def ipNoUser : IdP :=
  { get_default_plugin := pluginW
    get_user := fun _ => none
    get_plugin := fun _ => none }

/-- Environment over ipNoUser. -/
def envNoUser : Env := { ip := ipNoUser, q := fun _ _ => none }

/-- A plugin fixture whose fresh start with AuthInfo is Forbidden. -/
def pluginF : AuthPluginM :=
  { name := "denier"
    client_plugin_name := none
    startNoInfo := (Decision.moreData [0], [])
    startWithInfo := (Decision.forbidden (some "nope"), []) }

/-- Identity provider fixture over pluginF. -/
def ipF : IdP :=
  { get_default_plugin := pluginF
    get_user := fun u => some (userW u)
    get_plugin := fun _ => none }

/-- Environment over ipF. -/
def envF : Env := { ip := ipF, q := fun _ _ => none }

/-- Handshake response fixture for user u with no declared client plugin. -/
def hsW : HandshakeResponse :=
  { capabilities := 0, max_packet_size := 0, database := none, client_plugin := none
    connect_attrs := [], zstd_compression_level := 0, username := "u"
    client_charset := DEFAULT_CHARSET, auth_response := [] }

/-- COM_CHANGE_USER payload fixture carrying a database, charset and
connect attrs. -/
def cuW : ComChangeUser :=
  { database := some "db2", username := "bob", client_charset := some 33
    connect_attrs := [("k", "v")], auth_response := [], client_plugin := none }

/-- A fresh connection fixture (id 1, no capabilities). -/
def c0 : Conn := Conn.mk0 1 0

/-- A connection fixture that finished a handshake (the stored handshake
plugin name is what the authenticate assert requires). -/
def cAuthed : Conn := { c0 with handshake_auth_plugin := some "gullible" }

/-- A prepared statement fixture holding a one-row cursor. -/
def stmtCur1 : PreparedStatement :=
  { stmt_id := 1, sql := "SELECT 1", num_params := 0
    param_buffers := none, cursor := some [Packet.binaryRow [7]] }

/-- Connection fixture holding stmtCur1 under id 1. -/
def cCur1 : Conn := { c0 with prepared_stmts := [(1, stmtCur1)] }

/-- A prepared statement fixture holding a two-row cursor. -/
def stmtCur2 : PreparedStatement :=
  { stmt_id := 1, sql := "SELECT 1", num_params := 0
    param_buffers := none, cursor := some [Packet.binaryRow [1], Packet.binaryRow [2]] }

/-- Connection fixture holding stmtCur2 under id 1. -/
def cCur2 : Conn := { c0 with prepared_stmts := [(1, stmtCur2)] }

/-- Connection fixture with CLIENT_DEPRECATE_EOF negotiated. -/
def cDep : Conn := { Conn.mk0 1 CLIENT_DEPRECATE_EOF with capabilities := CLIENT_DEPRECATE_EOF }

/-- A freshly prepared one-parameter statement fixture. -/
def stmtP : PreparedStatement :=
  { stmt_id := 1, sql := "SELECT ?", num_params := 1
    param_buffers := none, cursor := none }

/-- Connection fixture holding stmtP under id 1. -/
def cPrep : Conn := { c0 with prepared_stmts := [(1, stmtP)] }

/-- The classification of events authenticate can emit: it only ever
writes AuthMoreData, OK, ERR or AuthSwitchRequest packets. -/
def authEvt (e : Event) : Prop :=
  (∃ b, e = Event.write (Packet.authMoreData b)) ∨
    (∃ f, e = Event.write (Packet.okP f)) ∨
    (∃ code msg, e = Event.write (Packet.errP code msg)) ∨
    (∃ pl pd, e = Event.write (Packet.authSwitchRequest pl pd))

/-- Lookup after an update. -/
theorem alookup_aset {α : Type} (l : List (Nat × α)) (i : Nat) (v : α) (j : Nat) :
    alookup (aset l i v) j = if j = i then some v else alookup l j := by
  induction l with
  | nil =>
    by_cases h : j = i
    · subst h; simp [aset, alookup]
    · simp [aset, alookup, h, Ne.symm h]
  | cons hd t ih =>
    obtain ⟨k, w⟩ := hd
    by_cases hk : k = i
    · subst hk
      by_cases h : j = k
      · subst h; simp [aset, alookup]
      · simp [aset, alookup, h, Ne.symm h]
    · by_cases h : j = k
      · subst h
        simp [aset, alookup, hk, Ne.symm hk]
      · simp [aset, alookup, hk, h, Ne.symm h, ih]

/-- Members of an updated association list. -/
theorem mem_aset {α : Type} (l : List (Nat × α)) (i : Nat) (v : α) (x : Nat × α)
    (hx : x ∈ aset l i v) : x = (i, v) ∨ x ∈ l := by
  induction l with
  | nil =>
    simp [aset] at hx
    exact Or.inl hx
  | cons hd t ih =>
    obtain ⟨k, w⟩ := hd
    by_cases hk : k = i
    · subst hk
      simp [aset] at hx
      rcases hx with h | h
      · exact Or.inl (by simp [h])
      · exact Or.inr (by simp [h])
    · simp [aset, hk] at hx
      rcases hx with h | h
      · exact Or.inr (by simp [h])
      · rcases ih h with h1 | h1
        · exact Or.inl h1
        · exact Or.inr (by simp [h1])

/-- Members of a reduced association list. -/
theorem mem_aerase {α : Type} (l : List (Nat × α)) (i : Nat) (x : Nat × α)
    (hx : x ∈ aerase l i) : x ∈ l := by
  induction l with
  | nil => simpa [aerase] using hx
  | cons hd t ih =>
    obtain ⟨k, w⟩ := hd
    by_cases hk : k = i
    · subst hk
      simp [aerase] at hx
      simp [hx]
    · simp [aerase, hk] at hx
      rcases hx with h | h
      · simp [h]
      · simp [ih h]

/-- A key absent from every entry is not found. -/
theorem alookup_eq_none {α : Type} (l : List (Nat × α)) (i : Nat)
    (h : ∀ x ∈ l, x.1 ≠ i) : alookup l i = none := by
  induction l with
  | nil => simp [alookup]
  | cons hd t ih =>
    obtain ⟨k, w⟩ := hd
    have hk : k ≠ i := h (k, w) (by simp)
    simp [alookup, hk]
    exact ih (fun x hx => h x (by simp [hx]))

/-- Every event the authenticate while-loop emits is an AuthMoreData write. -/
theorem authLoop_events (d : Decision) (script : List Decision) (input : List ClientMsg) :
    ∀ e ∈ (authLoop d script input).1, ∃ b, e = Event.write (Packet.authMoreData b) := by
  induction script generalizing d input with
  | nil =>
    intro e he
    cases d with
    | success u => simp [authLoop] at he
    | forbidden m => simp [authLoop] at he
    | moreData b =>
      cases input with
      | nil => simp [authLoop] at he; exact ⟨b, he⟩
      | cons m rest =>
        cases m with
        | raw bb => simp [authLoop] at he; exact ⟨b, he⟩
        | hs r => simp [authLoop] at he; exact ⟨b, he⟩
        | cmd cd => simp [authLoop] at he; exact ⟨b, he⟩
  | cons d2 script' ih =>
    intro e he
    cases d with
    | success u => simp [authLoop] at he
    | forbidden m => simp [authLoop] at he
    | moreData b =>
      cases input with
      | nil => simp [authLoop] at he; exact ⟨b, he⟩
      | cons m rest =>
        cases m with
        | raw bb =>
          simp [authLoop] at he
          rcases he with h | h
          · exact ⟨b, h⟩
          · exact ih d2 rest e h
        | hs r => simp [authLoop] at he; exact ⟨b, he⟩
        | cmd cd => simp [authLoop] at he; exact ⟨b, he⟩

/-- Every event authFinish emits is an AuthMoreData write, the OK packet,
or an ERR packet. -/
theorem authFinish_events (c : Conn) (user : UserM) (d : Decision)
    (script : List Decision) (input : List ClientMsg) :
    ∀ e ∈ (authFinish c user d script input).events,
      (∃ b, e = Event.write (Packet.authMoreData b)) ∨ e = Event.write c.okPkt ∨
        ∃ code msg, e = Event.write (Packet.errP code msg) := by
  intro e he
  have hmem : ∀ x ∈ (authLoop d script input).1, ∃ b, x = Event.write (Packet.authMoreData b) :=
    authLoop_events d script input
  rcases hr : authLoop d script input with ⟨ev, r, n⟩
  rw [hr] at hmem
  unfold authFinish at he
  rw [hr] at he
  rcases r with _ | dd
  · simp at he
    exact Or.inl (hmem e he)
  · cases dd with
    | moreData b =>
      simp at he
      exact Or.inl (hmem e he)
    | success u =>
      simp at he
      rcases he with h | h
      · exact Or.inl (hmem e h)
      · exact Or.inr (Or.inl h)
    | forbidden m =>
      simp at he
      rcases he with h | h
      · exact Or.inl (hmem e h)
      · exact Or.inr (Or.inr ⟨ErrCode.accessDenied, forbiddenMsg m user, h⟩)

/-- authFinish events, cast into the authEvt classification. -/
theorem authFinish_authEvt (c : Conn) (user : UserM) (d : Decision)
    (script : List Decision) (input : List ClientMsg) :
    ∀ e ∈ (authFinish c user d script input).events, authEvt e := by
  intro e he
  rcases authFinish_events c user d script input e he with ⟨b, h⟩ | h | ⟨code, msg, h⟩
  · exact Or.inl ⟨b, h⟩
  · exact Or.inr (Or.inl ⟨c.status_flags, h⟩)
  · exact Or.inr (Or.inr (Or.inl ⟨code, msg, h⟩))

/-- authFinish never writes an AuthSwitchRequest. -/
theorem authFinish_no_switch (c : Conn) (user : UserM) (d : Decision)
    (script : List Decision) (input : List ClientMsg) (pl : String) (pd : Bytes) :
    Event.write (Packet.authSwitchRequest pl pd) ∉ (authFinish c user d script input).events := by
  intro hmem
  rcases authFinish_events c user d script input _ hmem with ⟨b, h⟩ | h | ⟨code, msg, h⟩
  · simp at h
  · simp [Conn.okPkt] at h
  · simp at h

/-- Every event authenticate emits is an auth-dialogue write. -/
theorem authenticate_authEvt (ip : IdP) (c : Conn) (username : String) (ar : Bytes)
    (cpn : Option String) (attrs : List (String × String)) (ast : Option (List Decision))
    (sp : Option AuthPluginM) (input : List ClientMsg) :
    ∀ e ∈ (authenticate ip c username ar cpn attrs ast sp input).events, authEvt e := by
  intro e he
  simp only [authenticate] at he
  split at he
  · simp at he
    exact Or.inr (Or.inr (Or.inl ⟨_, _, he⟩))
  · split at he
    · simp at he
    · split at he
      · split at he
        · simp at he
        · simp at he
        · exact authFinish_authEvt _ _ _ _ _ e he
      · split at he
        · exact authFinish_authEvt _ _ _ _ _ e he
        · split at he
          · split at he
            · exact authFinish_authEvt _ _ _ _ _ e he
            · split at he
              · split at he
                · simp at he
                  exact Or.inr (Or.inr (Or.inr ⟨_, _, he⟩))
                · simp at he
                  rcases he with h | h
                  · exact Or.inr (Or.inr (Or.inr ⟨_, _, h⟩))
                  · exact authFinish_authEvt _ _ _ _ _ e h
              · simp at he
                exact Or.inr (Or.inr (Or.inr ⟨_, _, he⟩))
          · exact authFinish_authEvt _ _ _ _ _ e he

/-- Every event authenticate emits is a stream write. -/
theorem authenticate_writes (ip : IdP) (c : Conn) (username : String) (ar : Bytes)
    (cpn : Option String) (attrs : List (String × String)) (ast : Option (List Decision))
    (sp : Option AuthPluginM) (input : List ClientMsg) :
    ∀ e ∈ (authenticate ip c username ar cpn attrs ast sp input).events,
      ∃ p, e = Event.write p := by
  intro e he
  rcases authenticate_authEvt ip c username ar cpn attrs ast sp input e he with
    ⟨b, h⟩ | ⟨f, h⟩ | ⟨code, msg, h⟩ | ⟨pl, pd, h⟩
  · exact ⟨_, h⟩
  · exact ⟨_, h⟩
  · exact ⟨_, h⟩
  · exact ⟨_, h⟩

/-- authenticate never emits a sequence reset. -/
theorem authenticate_no_reset (ip : IdP) (c : Conn) (username : String) (ar : Bytes)
    (cpn : Option String) (attrs : List (String × String)) (ast : Option (List Decision))
    (sp : Option AuthPluginM) (input : List ClientMsg) :
    Event.resetSeq ∉ (authenticate ip c username ar cpn attrs ast sp input).events := by
  intro hmem
  rcases authenticate_writes ip c username ar cpn attrs ast sp input Event.resetSeq hmem
    with ⟨p, hp⟩
  simp at hp

/-- When the optimistic fast-path condition of authenticate holds (a
server plugin was supplied, its required client plugin is unspecified or
matches the declared one, and its name equals the resolved user plugin
name), authenticate resumes the pending dialogue and never writes an
AuthSwitchRequest. -/
theorem authenticate_fast_no_switch (ip : IdP) (c : Conn) (username : String)
    (ar : Bytes) (cpn : Option String) (attrs : List (String × String))
    (script : List Decision) (sp : AuthPluginM) (input : List ClientMsg) (user : UserM)
    (hu : ip.get_user username = some user)
    (hc : sp.client_plugin_name = none ∨ sp.client_plugin_name = cpn)
    (hn : sp.name = (resolveUserPlugin ip user).name) :
    ∀ pl pd, Event.write (Packet.authSwitchRequest pl pd) ∉
      (authenticate ip c username ar cpn attrs (some script) (some sp) input).events := by
  intro pl pd hmem
  have hfast : ((sp.client_plugin_name.isNone || sp.client_plugin_name == cpn)
      && sp.name == (resolveUserPlugin ip user).name) = true := by
    rcases hc with h | h <;> simp [h, hn]
  rcases hh : c.handshake_auth_plugin with _ | hap
  · simp only [authenticate, hu, hh] at hmem
    simp at hmem
  · cases script with
    | nil =>
      simp only [authenticate, hu, hh, hfast] at hmem
      simp at hmem
    | cons d s =>
      simp only [authenticate, hu, hh, hfast, if_true] at hmem
      exact authFinish_no_switch _ _ _ _ _ pl pd hmem

/-- Every event the connection phase emits is a stream write or the final
sequence reset. -/
theorem connection_phase_events (env : Env) (c : Conn) (input : List ClientMsg) :
    ∀ e ∈ (connection_phase env c input).events,
      (∃ p, e = Event.write p) ∨ e = Event.resetSeq := by
  intro e he
  simp only [connection_phase] at he
  split at he
  · split at he
    · split at he
      · simp at he
        rcases he with h | h
        · exact Or.inl ⟨_, h⟩
        · exact Or.inl (authenticate_writes _ _ _ _ _ _ _ _ _ e h)
      · simp at he
        rcases he with h | h | h
        · exact Or.inl ⟨_, h⟩
        · exact Or.inl (authenticate_writes _ _ _ _ _ _ _ _ _ e h)
        · exact Or.inr h
    · simp at he
      exact Or.inl ⟨_, he⟩
  · simp at he

/-- C1: the claim says every accepted connection gets a Connection built
with the identity provider and that construction succeeds; but the keyword
call MysqlServer._client_connected_cb makes does not bind the parameters
of Connection.__init__: it omits the required identity_provider, passes an
auth_plugins keyword that no parameter declares, and therefore fails
Python keyword binding (a TypeError) for every accepted connection. -/
theorem client_connected_cb_connection_construction_fails :
    client_connected_cb_kwargs.contains "identity_provider" = false
    ∧ (Connection_init_params.map Prod.fst).contains "auth_plugins" = false
    ∧ kwCallOk Connection_init_params client_connected_cb_kwargs = false := by
  decide

/-- C5: with CLIENT_DEPRECATE_EOF negotiated, a STMT_PREPARE of a
one-parameter statement still writes a classic EOF packet after the
parameter definition block; the claim says no EOF packet is written in
that case (com_stmt_prepare_response lacks the deprecate_eof guard that
text_resultset and handle_stmt_execute apply). -/
theorem stmt_prepare_writes_eof_despite_deprecate_eof :
    cDep.deprecate_eof = true
    ∧ (handle_stmt_prepare cDep "SELECT ?").events =
        [Event.write (Packet.prepareOk 0 1), Event.write (Packet.colDef "?"),
         Event.write (Packet.eofP 0 0)] := by
  decide

/-- C4 counterexample: a statement whose cursor holds exactly one row,
fetched with num_rows = 1 (so k = n and the iterator is exhausted),
answers with CURSOR_EXISTS, not with LAST_ROW_SENT as the claim requires
for k le n. -/
theorem stmt_fetch_exact_count_keeps_cursor_exists :
    (handle_stmt_fetch cCur1 1 1).events =
      [Event.write (Packet.binaryRow [7]),
       Event.write (Packet.eofP 0 SERVER_STATUS_CURSOR_EXISTS)] := by
  decide

/-- C4 (amended): a cursor execute attaches the binary row packets of the
result set to the statement and ends with CURSOR_EXISTS; a STMT_FETCH n on
a cursor of k remaining rows writes exactly min(n, k) row packets followed
by one OK-or-EOF whose flags carry LAST_ROW_SENT iff k < n (when k = n the
exhaustion is not yet observed) and CURSOR_EXISTS otherwise, and leaves
the k - n unsent rows on the cursor. -/
theorem stmt_fetch_rows_and_flags :
    (∀ (env : Env) (c : Conn) (stmt_id : Nat) (stmt : PreparedStatement)
        (params : List Bytes) (rs : RS),
      alookup c.prepared_stmts stmt_id = some stmt →
      env.q stmt.sql (resolveParams stmt.param_buffers params) = some rs →
      (handle_stmt_execute env c stmt_id true params).err = none
      ∧ alookup (handle_stmt_execute env c stmt_id true params).conn.prepared_stmts stmt_id =
          some { stmt with param_buffers := none, cursor := some (rs.rows.map Packet.binaryRow) }
      ∧ ∃ pre, (handle_stmt_execute env c stmt_id true params).events =
          pre ++ [Event.write (c.ok_or_eof 0 0 SERVER_STATUS_CURSOR_EXISTS)])
    ∧
    (∀ (c : Conn) (stmt_id : Nat) (stmt : PreparedStatement) (rows : List Packet) (n : Nat),
      alookup c.prepared_stmts stmt_id = some stmt →
      stmt.cursor = some rows →
      (handle_stmt_fetch c stmt_id n).events =
        (rows.take n).map Event.write ++
          [Event.write (c.ok_or_eof 0 0
            (if rows.length < n then SERVER_STATUS_LAST_ROW_SENT
             else SERVER_STATUS_CURSOR_EXISTS))]
      ∧ ((rows.take n).map Event.write).length = min n rows.length
      ∧ alookup (handle_stmt_fetch c stmt_id n).conn.prepared_stmts stmt_id =
          some { stmt with cursor := some (rows.drop n) }) := by
  constructor
  · intro env c stmt_id stmt params rs hs hq
    simp only [handle_stmt_execute, get_stmt, hs, hq]
    refine ⟨rfl, ?_, ?_⟩
    · simp [alookup_aset]
    · exact ⟨Event.query stmt.sql (resolveParams stmt.param_buffers params) ::
        Event.write (Packet.uintLen rs.columns.length) ::
        rs.columns.map (fun col => Event.write (Packet.colDef col.name)),
        by simp [Conn.ok_or_eof, Conn.deprecate_eof]⟩
  · intro c stmt_id stmt rows n hs hc
    simp only [handle_stmt_fetch, get_stmt, hs, hc]
    refine ⟨?_, by simp [List.length_take], by simp [alookup_aset]⟩
    by_cases h : rows.length < n
    · have h2 : min n rows.length < n := by omega
      simp [List.length_take, h, h2, Conn.ok_or_eof, Conn.deprecate_eof]
    · have h2 : ¬ min n rows.length < n := by omega
      simp [List.length_take, h, h2, Conn.ok_or_eof, Conn.deprecate_eof]

/-- C4 witness: the amended theorem at a concrete two-row cursor fetched
with num_rows = 1. -/
theorem stmt_fetch_rows_and_flags_witness :
    (handle_stmt_fetch cCur2 1 1).events =
      (([Packet.binaryRow [1], Packet.binaryRow [2]].take 1).map Event.write) ++
        [Event.write (cCur2.ok_or_eof 0 0
          (if [Packet.binaryRow [1], Packet.binaryRow [2]].length < 1
           then SERVER_STATUS_LAST_ROW_SENT else SERVER_STATUS_CURSOR_EXISTS))]
    ∧ (([Packet.binaryRow [1], Packet.binaryRow [2]].take 1).map Event.write).length =
        min 1 [Packet.binaryRow [1], Packet.binaryRow [2]].length
    ∧ alookup (handle_stmt_fetch cCur2 1 1).conn.prepared_stmts 1 =
        some { stmtCur2 with cursor := some ([Packet.binaryRow [1], Packet.binaryRow [2]].drop 1) } :=
  stmt_fetch_rows_and_flags.2 cCur2 1 stmtCur2
    [Packet.binaryRow [1], Packet.binaryRow [2]] 1 (by decide) (by decide)

/-- C6 counterexample: a STMT_CLOSE naming an unregistered id is silently
ignored (pop with a default): the iteration writes no ERR packet, only the
sequence reset happens, although the claim requires an UNKNOWN_PROCEDURE
ERR for every statement-id command with an unknown id. -/
theorem stmt_close_unknown_id_is_silent :
    alookup c0.prepared_stmts 5 = none
    ∧ (commandIter envW c0 (Command.stmtClose 5) []).events = [Event.resetSeq] := by
  decide

/-- C6 (amended): a STMT_SEND_LONG_DATA, STMT_EXECUTE, STMT_FETCH or
STMT_RESET naming an id absent from the registry fails with an
UNKNOWN_PROCEDURE ERR packet and leaves the connection unchanged;
STMT_CLOSE ignores unknown ids silently (see counterexample). -/
theorem unknown_stmt_id_errors :
    ∀ (env : Env) (c : Conn) (input : List ClientMsg) (sid : Nat),
      alookup c.prepared_stmts sid = none →
      (∀ pid d, (commandIter env c (Command.stmtSendLongData sid pid d) input).events =
        [Event.write (Packet.errP ErrCode.unknownProcedure (unknownStmtMsg sid)), Event.resetSeq]
        ∧ (commandIter env c (Command.stmtSendLongData sid pid d) input).conn = c)
      ∧ (∀ uc pp, (commandIter env c (Command.stmtExecute sid uc pp) input).events =
        [Event.write (Packet.errP ErrCode.unknownProcedure (unknownStmtMsg sid)), Event.resetSeq]
        ∧ (commandIter env c (Command.stmtExecute sid uc pp) input).conn = c)
      ∧ (∀ n, (commandIter env c (Command.stmtFetch sid n) input).events =
        [Event.write (Packet.errP ErrCode.unknownProcedure (unknownStmtMsg sid)), Event.resetSeq]
        ∧ (commandIter env c (Command.stmtFetch sid n) input).conn = c)
      ∧ ((commandIter env c (Command.stmtReset sid) input).events =
        [Event.write (Packet.errP ErrCode.unknownProcedure (unknownStmtMsg sid)), Event.resetSeq]
        ∧ (commandIter env c (Command.stmtReset sid) input).conn = c) := by
  intro env c input sid h
  have hg : get_stmt c sid =
      Except.error (MErr.mysql ErrCode.unknownProcedure (unknownStmtMsg sid)) := by
    simp [get_stmt, h]
  refine ⟨?_, ?_, ?_, ?_⟩
  · intro pid d
    simp [commandIter, execCommand, StepRes.ofH, handle_stmt_send_long_data, hg]
  · intro uc pp
    simp [commandIter, execCommand, StepRes.ofH, handle_stmt_execute, hg]
  · intro n
    simp [commandIter, execCommand, StepRes.ofH, handle_stmt_fetch, hg]
  · simp [commandIter, execCommand, StepRes.ofH, handle_stmt_reset, hg]

/-- C6 witness: the amended theorem at a fresh connection and id 3. -/
theorem unknown_stmt_id_errors_witness :
    ((commandIter envW c0 (Command.stmtSendLongData 3 0 [1]) []).events =
      [Event.write (Packet.errP ErrCode.unknownProcedure (unknownStmtMsg 3)), Event.resetSeq]
      ∧ (commandIter envW c0 (Command.stmtSendLongData 3 0 [1]) []).conn = c0)
    ∧ ((commandIter envW c0 (Command.stmtExecute 3 false []) []).events =
      [Event.write (Packet.errP ErrCode.unknownProcedure (unknownStmtMsg 3)), Event.resetSeq]
      ∧ (commandIter envW c0 (Command.stmtExecute 3 false []) []).conn = c0)
    ∧ ((commandIter envW c0 (Command.stmtFetch 3 2) []).events =
      [Event.write (Packet.errP ErrCode.unknownProcedure (unknownStmtMsg 3)), Event.resetSeq]
      ∧ (commandIter envW c0 (Command.stmtFetch 3 2) []).conn = c0)
    ∧ ((commandIter envW c0 (Command.stmtReset 3) []).events =
      [Event.write (Packet.errP ErrCode.unknownProcedure (unknownStmtMsg 3)), Event.resetSeq]
      ∧ (commandIter envW c0 (Command.stmtReset 3) []).conn = c0) := by
  have h := unknown_stmt_id_errors envW c0 [] 3 (by decide)
  exact ⟨h.1 0 [1], h.2.1 false [], h.2.2.1 2, h.2.2.2⟩

/-- C3 counterexample: a handshake in which the identity provider knows no
user writes the USER_DOES_NOT_EXIST ERR packet, yet the connection then
calls session.init and enters the command phase (session.close at the end
of the trace), contradicting the claim that the command phase is never
entered and session.init never called for a failed handshake. -/
theorem auth_failure_still_enters_command_phase :
    start envNoUser c0 [ClientMsg.hs hsW] =
      [Event.write (Packet.handshakeV10 1 [0] "gullible"),
       Event.write (Packet.errP ErrCode.userDoesNotExist (unknownUserMsg "u")),
       Event.resetSeq, Event.sessionInit, Event.sessionClose] := by
  decide

/-- C3 (amended): when the connection phase raises (no state is returned),
start writes the HANDSHAKE_ERROR ERR packet after the partial handshake
trace and re-raises: session.init is never called and the command phase
is never entered.  When authenticate merely decides a failure it writes
the specific ERR and returns normally, and the connection proceeds. -/
theorem handshake_exception_writes_err_and_closes :
    ∀ (env : Env) (c : Conn) (input : List ClientMsg),
      (connection_phase env c input).result = none →
      start env c input =
        (connection_phase env c input).events ++
          [Event.write (Packet.errP ErrCode.handshakeError handshakeFailMsg)]
      ∧ Event.sessionInit ∉ start env c input
      ∧ Event.sessionClose ∉ start env c input := by
  intro env c input h
  have hstart : start env c input =
      (connection_phase env c input).events ++
        [Event.write (Packet.errP ErrCode.handshakeError handshakeFailMsg)] := by
    simp only [start, h]
  refine ⟨hstart, ?_, ?_⟩
  · rw [hstart]
    intro hmem
    simp at hmem
    rcases connection_phase_events env c input _ hmem with ⟨p, hp⟩ | hp <;> simp at hp
  · rw [hstart]
    intro hmem
    simp at hmem
    rcases connection_phase_events env c input _ hmem with ⟨p, hp⟩ | hp <;> simp at hp

/-- C3 witness: the amended theorem at a connection whose client vanishes
right after the server greeting (the read raises ConnectionClosed). -/
theorem handshake_exception_writes_err_and_closes_witness :
    (connection_phase envW c0 []).result = none
    ∧ (start envW c0 [] =
        (connection_phase envW c0 []).events ++
          [Event.write (Packet.errP ErrCode.handshakeError handshakeFailMsg)]
      ∧ Event.sessionInit ∉ start envW c0 []
      ∧ Event.sessionClose ∉ start envW c0 []) :=
  ⟨by decide, handshake_exception_writes_err_and_closes envW c0 [] (by decide)⟩

/-- No command dispatch emits a sequence reset itself: the only reset of
an iteration is the one its finally block appends. -/
theorem execCommand_no_reset (env : Env) (c : Conn) (cmd : Command) (input : List ClientMsg) :
    Event.resetSeq ∉ (execCommand env c cmd input).events := by
  intro hmem
  cases cmd with
  | query sql =>
    rcases hq : env.q sql [] with _ | rs <;>
      simp [execCommand, StepRes.ofH, handle_query, hq] at hmem
  | stmtPrepare sql =>
    simp [execCommand, StepRes.ofH, handle_stmt_prepare] at hmem
  | stmtSendLongData sid pid d =>
    rcases hg : get_stmt c sid with e | stmt <;>
      simp [execCommand, StepRes.ofH, handle_stmt_send_long_data, hg] at hmem
  | stmtExecute sid uc pp =>
    rcases hg : get_stmt c sid with e | stmt
    · simp [execCommand, StepRes.ofH, handle_stmt_execute, hg] at hmem
    · rcases hq : env.q stmt.sql (resolveParams stmt.param_buffers pp) with _ | rs
      · simp [execCommand, StepRes.ofH, handle_stmt_execute, hg, hq] at hmem
      · cases uc <;>
          simp [execCommand, StepRes.ofH, handle_stmt_execute, hg, hq] at hmem
  | stmtFetch sid n =>
    rcases hg : get_stmt c sid with e | stmt
    · simp [execCommand, StepRes.ofH, handle_stmt_fetch, hg] at hmem
    · rcases hc : stmt.cursor with _ | rows
      · simp [execCommand, StepRes.ofH, handle_stmt_fetch, hg, hc] at hmem
      · simp [execCommand, StepRes.ofH, handle_stmt_fetch, hg, hc] at hmem
        have := List.take_subset n (List.map Event.write rows) hmem
        simp at this
  | stmtReset sid =>
    rcases hg : get_stmt c sid with e | stmt <;>
      simp [execCommand, StepRes.ofH, handle_stmt_reset, hg] at hmem
  | stmtClose sid =>
    simp [execCommand, StepRes.ofH, handle_stmt_close] at hmem
  | ping => simp [execCommand] at hmem
  | changeUser cu =>
    simp only [execCommand, handle_change_user] at hmem
    split at hmem
    · simp only at hmem
      exact absurd hmem (authenticate_no_reset _ _ _ _ _ _ _ _ _)
    · simp at hmem
      exact absurd hmem (authenticate_no_reset _ _ _ _ _ _ _ _ _)
  | resetConnection => simp [execCommand] at hmem
  | debug => simp [execCommand] at hmem
  | quit => simp [execCommand] at hmem
  | unknown code => simp [execCommand] at hmem

/-- The connection phase either returns a state and its trace ends in its
unique sequence reset, or it raises and its trace holds no reset at all. -/
theorem connection_phase_reset_shape (env : Env) (c : Conn) (input : List ClientMsg) :
    (∃ h, (connection_phase env c input).events = h ++ [Event.resetSeq]
      ∧ Event.resetSeq ∉ h ∧ ∃ x, (connection_phase env c input).result = some x)
    ∨ (Event.resetSeq ∉ (connection_phase env c input).events
      ∧ (connection_phase env c input).result = none) := by
  simp only [connection_phase]
  split
  · split
    · split
      · right
        refine ⟨?_, rfl⟩
        intro hmem
        simp at hmem
        exact absurd hmem (authenticate_no_reset _ _ _ _ _ _ _ _ _)
      · left
        refine ⟨_, rfl, ?_, ⟨_, rfl⟩⟩
        intro hmem
        simp at hmem
        exact absurd hmem (authenticate_no_reset _ _ _ _ _ _ _ _ _)
    · right
      refine ⟨?_, rfl⟩
      intro hmem
      simp at hmem
  · right
    refine ⟨?_, rfl⟩
    intro hmem
    simp at hmem

/-- C8: the sequence counter resets exactly at the stated points: a
successful connection phase emits exactly one resetSeq, as its final
event, right after authentication completes; a connection phase that
raises emits none; and every command-phase iteration ends with exactly
one resetSeq, whether the command succeeded or raised. -/
theorem reset_seq_boundaries :
    (∀ (env : Env) (c : Conn) (input : List ClientMsg),
      ((connection_phase env c input).result.isSome →
        ∃ h, (connection_phase env c input).events = h ++ [Event.resetSeq]
          ∧ Event.resetSeq ∉ h)
      ∧ ((connection_phase env c input).result.isNone →
        Event.resetSeq ∉ (connection_phase env c input).events))
    ∧ (∀ (env : Env) (c : Conn) (cmd : Command) (input : List ClientMsg),
      ∃ h, (commandIter env c cmd input).events = h ++ [Event.resetSeq]
        ∧ Event.resetSeq ∉ h) := by
  constructor
  · intro env c input
    rcases connection_phase_reset_shape env c input with ⟨h, he, hn, x, hx⟩ | ⟨hn, hx⟩
    · constructor
      · intro _
        exact ⟨h, he, hn⟩
      · intro hno
        rw [hx] at hno
        simp at hno
    · constructor
      · intro hsome
        rw [hx] at hsome
        simp at hsome
      · intro _
        exact hn
  · intro env c cmd input
    refine ⟨(execCommand env c cmd input).events ++
      (match (execCommand env c cmd input).err with
        | none => []
        | some (MErr.mysql code msg) => [Event.write (Packet.errP code msg)]
        | some (MErr.other msg) => [Event.write (Packet.errP ErrCode.unknownError msg)]), ?_, ?_⟩
    · simp [commandIter]
    · intro hmem
      simp at hmem
      rcases hmem with hmem | hmem
      · exact execCommand_no_reset env c cmd input hmem
      · rcases he : (execCommand env c cmd input).err with _ | e
        · rw [he] at hmem
          simp at hmem
        · rcases e with ⟨code, msg⟩ | msg <;> rw [he] at hmem <;> simp at hmem

/-- C8 witness: the boundary facts at a concrete successful handshake and
a concrete PING iteration. -/
theorem reset_seq_boundaries_witness :
    (∃ h, (connection_phase envW c0 [ClientMsg.hs hsW]).events = h ++ [Event.resetSeq]
      ∧ Event.resetSeq ∉ h)
    ∧ ∃ h, (commandIter envW c0 Command.ping []).events = h ++ [Event.resetSeq]
      ∧ Event.resetSeq ∉ h :=
  ⟨(reset_seq_boundaries.1 envW c0 [ClientMsg.hs hsW]).1 (by decide),
    reset_seq_boundaries.2 envW c0 Command.ping []⟩

/-- C9: during the initial handshake, when the optimistically started
default plugin has the same name as the resolved user plugin and its
required client plugin is unspecified or equals the one the client
declared, the whole connection-phase trace holds no AuthSwitchRequest:
the fast path resumes the pending dialogue instead of switching. -/
theorem fast_path_no_auth_switch :
    ∀ (env : Env) (c : Conn) (r : HandshakeResponse) (rest : List ClientMsg) (user : UserM),
      env.ip.get_user r.username = some user →
      (env.ip.get_default_plugin.client_plugin_name = none
        ∨ env.ip.get_default_plugin.client_plugin_name = r.client_plugin) →
      env.ip.get_default_plugin.name = (resolveUserPlugin env.ip user).name →
      ∀ pl pd, Event.write (Packet.authSwitchRequest pl pd) ∉
        (connection_phase env c (ClientMsg.hs r :: rest)).events := by
  intro env c r rest user hu hc hn pl pd hmem
  simp only [connection_phase] at hmem
  split at hmem
  · split at hmem
    · simp at hmem
      exact absurd hmem
        (authenticate_fast_no_switch env.ip _ r.username r.auth_response r.client_plugin
          r.connect_attrs _ env.ip.get_default_plugin rest user hu hc hn pl pd)
    · simp at hmem
      exact absurd hmem
        (authenticate_fast_no_switch env.ip _ r.username r.auth_response r.client_plugin
          r.connect_attrs _ env.ip.get_default_plugin rest user hu hc hn pl pd)
  · simp at hmem

/-- C9 witness: the fast-path theorem at the concrete trust-all fixture. -/
theorem fast_path_no_auth_switch_witness :
    Event.write (Packet.authSwitchRequest "caching_sha2" [9]) ∉
      (connection_phase envW c0 [ClientMsg.hs hsW]).events :=
  fast_path_no_auth_switch envW c0 hsW [] (userW "u") (by decide) (Or.inl rfl)
    (by decide) "caching_sha2" [9]

/-- The state updates of handle_change_user, field by field. -/
theorem changeUserState_fields (c : Conn) (cu : ComChangeUser) :
    (changeUserState c cu).admin_database = cu.database
    ∧ (changeUserState c cu).vars_external_user = some cu.username
    ∧ (∀ ch, cu.client_charset = some ch → (changeUserState c cu).vars_client_charset = ch)
    ∧ (cu.connect_attrs ≠ [] → (changeUserState c cu).client_connect_attrs = cu.connect_attrs)
    ∧ (changeUserState c cu).handshake_auth_plugin = c.handshake_auth_plugin := by
  unfold changeUserState
  rcases hcs : cu.client_charset with _ | ch <;> by_cases ha : cu.connect_attrs = [] <;>
    simp [hcs, ha]

/-- C10: COM_CHANGE_USER is not atomic on authentication failure: the
database, external user and (when supplied) charset and connect attrs are
updated before authenticate runs, and when authentication fails with an
unknown user or a Forbidden decision the specific ERR packet is written,
session.init is still called, and none of the updates are rolled back
(the handler returns the updated state with no exception). -/
theorem change_user_not_atomic_on_auth_failure :
    (∀ (env : Env) (c : Conn) (cu : ComChangeUser) (input : List ClientMsg),
      env.ip.get_user cu.username = none →
      (handle_change_user env c cu input).1.events =
        [Event.write (Packet.errP ErrCode.userDoesNotExist (unknownUserMsg cu.username)),
         Event.sessionInit]
      ∧ (handle_change_user env c cu input).1.err = none
      ∧ (handle_change_user env c cu input).1.conn = changeUserState c cu
      ∧ (changeUserState c cu).admin_database = cu.database
      ∧ (changeUserState c cu).vars_external_user = some cu.username
      ∧ (∀ ch, cu.client_charset = some ch → (changeUserState c cu).vars_client_charset = ch)
      ∧ (cu.connect_attrs ≠ [] → (changeUserState c cu).client_connect_attrs = cu.connect_attrs))
    ∧
    (∀ (env : Env) (c : Conn) (cu : ComChangeUser) (input : List ClientMsg)
        (user : UserM) (m : Option String) (s : List Decision),
      env.ip.get_user cu.username = some user →
      c.handshake_auth_plugin.isSome →
      ((resolveUserPlugin env.ip user).client_plugin_name = none
        ∨ (resolveUserPlugin env.ip user).client_plugin_name = cu.client_plugin) →
      (resolveUserPlugin env.ip user).startWithInfo = (Decision.forbidden m, s) →
      (handle_change_user env c cu input).1.events =
        [Event.write (Packet.errP ErrCode.accessDenied (forbiddenMsg m user)),
         Event.sessionInit]
      ∧ (handle_change_user env c cu input).1.err = none
      ∧ (handle_change_user env c cu input).1.conn = changeUserState c cu) := by
  constructor
  · intro env c cu input hu
    refine ⟨?_, ?_, ?_, (changeUserState_fields c cu).1, (changeUserState_fields c cu).2.1,
      (changeUserState_fields c cu).2.2.1, (changeUserState_fields c cu).2.2.2.1⟩ <;>
      simp [handle_change_user, authenticate, hu]
  · intro env c cu input user m s hu hhap hc hsw
    have hdir : ((resolveUserPlugin env.ip user).client_plugin_name.isNone
        || (resolveUserPlugin env.ip user).client_plugin_name == cu.client_plugin) = true := by
      rcases hc with h | h <;> simp [h]
    rcases hhap2 : (changeUserState c cu).handshake_auth_plugin with _ | hap
    · rw [(changeUserState_fields c cu).2.2.2.2] at hhap2
      rw [hhap2] at hhap
      simp at hhap
    · refine ⟨?_, ?_, ?_⟩ <;>
        simp [handle_change_user, authenticate, hu, hhap2, hdir, hsw, authFinish, authLoop]

/-- C10 witness: the theorem at the concrete fixtures: an unknown user
for part one and a denying plugin for part two. -/
theorem change_user_not_atomic_on_auth_failure_witness :
    ((handle_change_user envNoUser c0 cuW []).1.events =
      [Event.write (Packet.errP ErrCode.userDoesNotExist (unknownUserMsg cuW.username)),
       Event.sessionInit]
    ∧ (handle_change_user envNoUser c0 cuW []).1.conn = changeUserState c0 cuW
    ∧ (changeUserState c0 cuW).admin_database = cuW.database)
    ∧ ((handle_change_user envF cAuthed cuW []).1.events =
      [Event.write (Packet.errP ErrCode.accessDenied (forbiddenMsg (some "nope") (userW "bob"))),
       Event.sessionInit]
    ∧ (handle_change_user envF cAuthed cuW []).1.err = none) := by
  have h1 := change_user_not_atomic_on_auth_failure.1 envNoUser c0 cuW [] (by decide)
  have h2 := change_user_not_atomic_on_auth_failure.2 envF cAuthed cuW [] (userW "bob")
    (some "nope") [] (by decide) (by decide) (Or.inl rfl) (by decide)
  exact ⟨⟨h1.1, h1.2.2.1, h1.2.2.2.1⟩, ⟨h2.1, h2.2.1⟩⟩

/-- Folding long-data sends over a statement whose buffer for the
parameter already holds B appends the concatenation of the payloads. -/
theorem applySends_buffers (sid i : Nat) :
    ∀ (ds : List Bytes) (c : Conn) (stmt : PreparedStatement) (B : Bytes),
      alookup c.prepared_stmts sid = some stmt →
      stmt.param_buffers = some [(i, B)] →
      alookup (applySends c sid i ds).prepared_stmts sid =
        some { stmt with param_buffers := some [(i, B ++ concatBytes ds)] } := by
  intro ds
  induction ds with
  | nil =>
    intro c stmt B h hb
    obtain ⟨s1, s2, s3, s4, s5⟩ := stmt
    simp at hb
    subst hb
    simpa [applySends, concatBytes] using h
  | cons d rest ih =>
    intro c stmt B h hb
    have hstep : (handle_stmt_send_long_data c sid i d).conn =
        { c with prepared_stmts := (aset c.prepared_stmts sid
            { stmt with param_buffers := some [(i, B ++ d)] }) } := by
      simp [handle_stmt_send_long_data, get_stmt, h, hb, aset, alookup]
    have hl : alookup ((handle_stmt_send_long_data c sid i d).conn).prepared_stmts sid =
        some { stmt with param_buffers := some [(i, B ++ d)] } := by
      rw [hstep]
      simp [alookup_aset]
    have hres := ih (handle_stmt_send_long_data c sid i d).conn
      { stmt with param_buffers := some [(i, B ++ d)] } (B ++ d) hl rfl
    calc alookup (applySends c sid i (d :: rest)).prepared_stmts sid
        = alookup (applySends (handle_stmt_send_long_data c sid i d).conn sid i rest).prepared_stmts sid := rfl
      _ = some { stmt with param_buffers := some [(i, (B ++ d) ++ concatBytes rest)] } := hres
      _ = some { stmt with param_buffers := some [(i, B ++ concatBytes (d :: rest))] } := by
          simp [concatBytes, List.append_assoc]

/-- From an empty long-data buffer, N sends for parameter i leave exactly
the concatenation of the N payloads in the buffer for i. -/
theorem applySends_from_none (sid i : Nat) (c : Conn) (stmt : PreparedStatement)
    (d : Bytes) (rest : List Bytes)
    (h : alookup c.prepared_stmts sid = some stmt)
    (hb : stmt.param_buffers = none) :
    alookup (applySends c sid i (d :: rest)).prepared_stmts sid =
      some { stmt with param_buffers := some [(i, concatBytes (d :: rest))] } := by
  have hstep : (handle_stmt_send_long_data c sid i d).conn =
      { c with prepared_stmts := (aset c.prepared_stmts sid
          { stmt with param_buffers := some [(i, d)] }) } := by
    simp [handle_stmt_send_long_data, get_stmt, h, hb, aset, alookup]
  have hl : alookup ((handle_stmt_send_long_data c sid i d).conn).prepared_stmts sid =
      some { stmt with param_buffers := some [(i, d)] } := by
    rw [hstep]
    simp [alookup_aset]
  have hres := applySends_buffers sid i rest (handle_stmt_send_long_data c sid i d).conn
    { stmt with param_buffers := some [(i, d)] } d hl rfl
  calc alookup (applySends c sid i (d :: rest)).prepared_stmts sid
      = alookup (applySends (handle_stmt_send_long_data c sid i d).conn sid i rest).prepared_stmts sid := rfl
    _ = some { stmt with param_buffers := some [(i, d ++ concatBytes rest)] } := hres
    _ = some { stmt with param_buffers := some [(i, concatBytes (d :: rest))] } := by
        simp [concatBytes]

/-- Element j of the resolved parameter list is the packet value at j run
through the buffer lookup at offset k + j. -/
theorem resolveParamsAux_get (b : Option (List (Nat × Bytes))) :
    ∀ (pp : List Bytes) (k j : Nat),
      (resolveParamsAux b k pp).get? j = (pp.get? j).map (fun v => paramValue b (k + j) v) := by
  intro pp
  induction pp with
  | nil =>
    intro k j
    simp [resolveParamsAux]
  | cons v rest ih =>
    intro k j
    cases j with
    | zero => simp [resolveParamsAux]
    | succ j' =>
      have h1 := ih (k + 1) j'
      simp only [resolveParamsAux, List.get?_cons_succ, h1]
      have h2 : k + 1 + j' = k + (j' + 1) := by omega
      rw [h2]

/-- With no long-data buffers, STMT_EXECUTE sees the packet parameters
verbatim. -/
theorem resolveParams_none : ∀ pp : List Bytes, resolveParams none pp = pp := by
  have aux : ∀ (pp : List Bytes) (k : Nat), resolveParamsAux none k pp = pp := by
    intro pp
    induction pp with
    | nil => intro k; simp [resolveParamsAux]
    | cons v rest ih => intro k; simp [resolveParamsAux, paramValue, ih]
  intro pp
  exact aux pp 0

/-- C7: after N greater than zero STMT_SEND_LONG_DATA commands carrying
payloads d1..dN for parameter i of a statement with empty buffers, the
statement buffer for i holds d1 ++ ... ++ dN and the next STMT_EXECUTE
sees parameter i equal to that concatenation; the execute sets
param_buffers back to None, so a second execute with no intervening sends
sees exactly the packet-supplied parameters and no buffered data. -/
theorem long_data_concatenation_and_clearing :
    ∀ (env : Env) (c : Conn) (sid : Nat) (stmt : PreparedStatement) (i : Nat)
      (d : Bytes) (ds : List Bytes) (pp : List Bytes),
      alookup c.prepared_stmts sid = some stmt →
      stmt.param_buffers = none →
      i < pp.length →
      alookup (applySends c sid i (d :: ds)).prepared_stmts sid =
        some { stmt with param_buffers := some [(i, concatBytes (d :: ds))] }
      ∧ (resolveParams (some [(i, concatBytes (d :: ds))]) pp).get? i =
          some (concatBytes (d :: ds))
      ∧ Event.query stmt.sql (resolveParams (some [(i, concatBytes (d :: ds))]) pp) ∈
          (handle_stmt_execute env (applySends c sid i (d :: ds)) sid false pp).events
      ∧ alookup (handle_stmt_execute env (applySends c sid i (d :: ds)) sid false pp).conn.prepared_stmts sid =
          some { stmt with param_buffers := none }
      ∧ resolveParams none pp = pp
      ∧ Event.query stmt.sql pp ∈
          (handle_stmt_execute env
            (handle_stmt_execute env (applySends c sid i (d :: ds)) sid false pp).conn
            sid false pp).events := by
  intro env c sid stmt i d ds pp h hb hi
  have hA := applySends_from_none sid i c stmt d ds h hb
  have hB : (resolveParams (some [(i, concatBytes (d :: ds))]) pp).get? i =
      some (concatBytes (d :: ds)) := by
    rw [resolveParams, resolveParamsAux_get]
    rcases hpp : pp.get? i with _ | v
    · rw [List.get?_eq_none] at hpp
      omega
    · simp [paramValue, alookup]
  have hC : alookup (handle_stmt_execute env (applySends c sid i (d :: ds)) sid false pp).conn.prepared_stmts sid =
      some { stmt with param_buffers := none } := by
    simp only [handle_stmt_execute, get_stmt, hA]
    split <;> simp [alookup_aset]
  refine ⟨hA, hB, ?_, hC, resolveParams_none pp, ?_⟩
  · simp only [handle_stmt_execute, get_stmt, hA]
    split <;> simp
  · generalize hg : (handle_stmt_execute env (applySends c sid i (d :: ds)) sid false pp).conn = c2 at hC ⊢
    simp only [handle_stmt_execute, get_stmt, hC]
    split <;> simp [resolveParams_none]

/-- C7 witness: two sends for parameter 0 of the fixture statement,
followed by two executes. -/
theorem long_data_concatenation_and_clearing_witness :
    alookup (applySends cPrep 1 0 [[1, 2], [3]]).prepared_stmts 1 =
      some { stmtP with param_buffers := some [(0, concatBytes [[1, 2], [3]])] }
    ∧ (resolveParams (some [(0, concatBytes [[1, 2], [3]])]) [[9]]).get? 0 =
        some (concatBytes [[1, 2], [3]])
    ∧ Event.query stmtP.sql (resolveParams (some [(0, concatBytes [[1, 2], [3]])]) [[9]]) ∈
        (handle_stmt_execute envW (applySends cPrep 1 0 [[1, 2], [3]]) 1 false [[9]]).events
    ∧ alookup (handle_stmt_execute envW (applySends cPrep 1 0 [[1, 2], [3]]) 1 false [[9]]).conn.prepared_stmts 1 =
        some { stmtP with param_buffers := none }
    ∧ resolveParams none [[9]] = [[9]]
    ∧ Event.query stmtP.sql [[9]] ∈
        (handle_stmt_execute envW
          (handle_stmt_execute envW (applySends cPrep 1 0 [[1, 2], [3]]) 1 false [[9]]).conn
          1 false [[9]]).events :=
  long_data_concatenation_and_clearing envW cPrep 1 stmtP 0 [1, 2] [[3]] [[9]]
    (by decide) (by decide) (by decide)

/-- Running a split prepare/close command list runs the two halves in
order and conjoins their freshness verdicts. -/
theorem runPC_append :
    ∀ (l1 l2 : List PCCmd) (c : Conn),
      runPC c (l1 ++ l2) =
        ((runPC (runPC c l1).1 l2).1, (runPC c l1).2 && (runPC (runPC c l1).1 l2).2) := by
  intro l1
  induction l1 with
  | nil =>
    intro l2 c
    simp [runPC]
  | cons cmd rest ih =>
    intro l2 c
    simp [runPC, ih, Bool.and_assoc]

/-- The freshness verdict of a split prepare/close command list. -/
theorem runPC_append_snd (l1 l2 : List PCCmd) (c : Conn) :
    (runPC c (l1 ++ l2)).2 = ((runPC c l1).2 && (runPC (runPC c l1).1 l2).2) := by
  rw [runPC_append]

/-- After k prepares the statement counter has advanced by k modulo 2^32
(the seq generator of utils.py is the plain modular counter; the callers,
not the generator, are responsible for any liveness skipping). -/
theorem runPC_replicate_next (s : String) :
    ∀ (k : Nat) (c : Conn), c.next_stmt_id < MAX_PREPARED_STMT_ID →
      (runPC c (List.replicate k (PCCmd.prep s))).1.next_stmt_id =
        (c.next_stmt_id + k) % MAX_PREPARED_STMT_ID := by
  intro k
  induction k with
  | zero =>
    intro c h
    simp [runPC, Nat.mod_eq_of_lt h]
  | succ k ih =>
    intro c h
    rw [List.replicate_succ]
    have hlt : (c.next_stmt_id + 1) % MAX_PREPARED_STMT_ID < MAX_PREPARED_STMT_ID :=
      Nat.mod_lt _ (by norm_num [MAX_PREPARED_STMT_ID])
    have step := ih (handle_stmt_prepare c s).conn hlt
    calc (runPC c (PCCmd.prep s :: List.replicate k (PCCmd.prep s))).1.next_stmt_id
        = (runPC (handle_stmt_prepare c s).conn (List.replicate k (PCCmd.prep s))).1.next_stmt_id := by
          simp [runPC, pcStep]
      _ = ((c.next_stmt_id + 1) % MAX_PREPARED_STMT_ID + k) % MAX_PREPARED_STMT_ID := step
      _ = (c.next_stmt_id + (k + 1)) % MAX_PREPARED_STMT_ID := by
          rw [Nat.mod_add_mod]
          ring_nf

/-- Prepares never evict key 0 from the registry. -/
theorem runPC_preserves_key0 (s : String) :
    ∀ (k : Nat) (c : Conn), (alookup c.prepared_stmts 0).isSome →
      (alookup (runPC c (List.replicate k (PCCmd.prep s))).1.prepared_stmts 0).isSome := by
  intro k
  induction k with
  | zero =>
    intro c h
    simpa [runPC] using h
  | succ k ih =>
    intro c h
    rw [List.replicate_succ]
    have hstep : (alookup (handle_stmt_prepare c s).conn.prepared_stmts 0).isSome := by
      simp only [handle_stmt_prepare]
      rw [alookup_aset]
      split
      · simp
      · exact h
    have := ih (handle_stmt_prepare c s).conn hstep
    simpa [runPC, pcStep] using this

set_option maxRecDepth 8192 in
/-- C2 counterexample: starting from a fresh connection, a sequence of
2^32 + 1 STMT_PREPARE commands (no closes, so the statement prepared
first stays live) fails the freshness check: the wrapped-around counter
hands out id 0 again while id 0 is still registered, so the claimed
skipping of live ids does not happen. -/
theorem stmt_id_reuse_after_wraparound :
    (runPC (Conn.mk0 1 0)
      (List.replicate (MAX_PREPARED_STMT_ID + 1) (PCCmd.prep "SELECT 1"))).2 = false := by
  have hcons : ∀ (c : Conn) (s : String) (rest : List PCCmd),
      (runPC c (PCCmd.prep s :: rest)).1 = (runPC (handle_stmt_prepare c s).conn rest).1 := by
    intro c s rest
    simp [runPC, pcStep]
  rw [List.replicate_succ', runPC_append_snd]
  have h0 : (Conn.mk0 1 0).next_stmt_id = 0 := rfl
  have hM : (0 : Nat) < MAX_PREPARED_STMT_ID := by norm_num [MAX_PREPARED_STMT_ID]
  have hnext : (runPC (Conn.mk0 1 0)
      (List.replicate MAX_PREPARED_STMT_ID (PCCmd.prep "SELECT 1"))).1.next_stmt_id = 0 := by
    rw [runPC_replicate_next "SELECT 1" MAX_PREPARED_STMT_ID (Conn.mk0 1 0) (by rw [h0]; exact hM)]
    rw [h0]
    simp
  have hkey : (alookup (runPC (Conn.mk0 1 0)
      (List.replicate MAX_PREPARED_STMT_ID (PCCmd.prep "SELECT 1"))).1.prepared_stmts 0).isSome := by
    have hsplit : MAX_PREPARED_STMT_ID = (MAX_PREPARED_STMT_ID - 1) + 1 := by
      norm_num [MAX_PREPARED_STMT_ID]
    rw [hsplit, List.replicate_succ, hcons]
    have hstep : (alookup (handle_stmt_prepare (Conn.mk0 1 0) "SELECT 1").conn.prepared_stmts 0).isSome := by
      decide
    exact runPC_preserves_key0 "SELECT 1" (MAX_PREPARED_STMT_ID - 1)
      (handle_stmt_prepare (Conn.mk0 1 0) "SELECT 1").conn hstep
  rcases Option.isSome_iff_exists.mp hkey with ⟨v, hv⟩
  have hfinal : (runPC (runPC (Conn.mk0 1 0)
      (List.replicate MAX_PREPARED_STMT_ID (PCCmd.prep "SELECT 1"))).1
      [PCCmd.prep "SELECT 1"]).2 = false := by
    generalize hcM : (runPC (Conn.mk0 1 0)
      (List.replicate MAX_PREPARED_STMT_ID (PCCmd.prep "SELECT 1"))).1 = cM at hnext hv ⊢
    simp only [runPC, pcStep, Bool.and_true]
    rw [hnext, hv]
    rfl
  rw [hfinal, Bool.and_false]

/-- C2 (amended): prepared-statement ids come from the plain monotonic
modular counter, with no skipping of live ids; freshness nevertheless
holds as long as the connection has performed at most 2^32 prepares in
total: below the wrap-around, every newly allocated id differs from every
id still present in the registry. -/
theorem stmt_ids_fresh_below_wraparound :
    ∀ cmds : List PCCmd, countPreps cmds ≤ MAX_PREPARED_STMT_ID →
      (runPC (Conn.mk0 1 0) cmds).2 = true := by
  have aux : ∀ (cmds : List PCCmd) (c : Conn) (p : Nat),
      c.next_stmt_id = p % MAX_PREPARED_STMT_ID →
      p + countPreps cmds ≤ MAX_PREPARED_STMT_ID →
      (∀ x ∈ c.prepared_stmts, x.1 < p) →
      (runPC c cmds).2 = true := by
    intro cmds
    induction cmds with
    | nil =>
      intro c p h1 h2 h3
      simp [runPC]
    | cons cmd rest ih =>
      intro c p h1 h2 h3
      cases cmd with
      | prep s =>
        have hcount : countPreps (PCCmd.prep s :: rest) = countPreps rest + 1 := by
          simp [countPreps]
        have hpM : p < MAX_PREPARED_STMT_ID := by omega
        have hnext : c.next_stmt_id = p := by rw [h1, Nat.mod_eq_of_lt hpM]
        have hfresh : alookup c.prepared_stmts c.next_stmt_id = none := by
          rw [hnext]
          exact alookup_eq_none c.prepared_stmts p (fun x hx => Nat.ne_of_lt (h3 x hx))
        have hih := ih (handle_stmt_prepare c s).conn (p + 1)
          (by simp only [handle_stmt_prepare]; rw [hnext])
          (by omega)
          (by
            intro x hx
            simp only [handle_stmt_prepare] at hx
            rcases mem_aset _ _ _ _ hx with hx1 | hx1
            · rw [hx1, hnext]
              omega
            · exact Nat.lt_succ_of_lt (h3 x hx1))
        simp [runPC, pcStep, hfresh, hih]
      | close j =>
        have hih := ih (handle_stmt_close c j).conn p
          (by simpa [handle_stmt_close] using h1)
          (by simp [countPreps] at h2; omega)
          (by
            intro x hx
            simp only [handle_stmt_close] at hx
            exact h3 x (mem_aerase _ _ _ hx))
        simp [runPC, pcStep, hih]
  intro cmds h
  exact aux cmds (Conn.mk0 1 0) 0 rfl (by simpa using h) (by simp [Conn.mk0])

/-- C2 witness: the amended theorem at a small concrete prepare/close
sequence. -/
theorem stmt_ids_fresh_below_wraparound_witness :
    (runPC (Conn.mk0 1 0)
      [PCCmd.prep "SELECT ?", PCCmd.prep "SELECT 1", PCCmd.close 0, PCCmd.prep "SELECT 2"]).2 = true :=
  stmt_ids_fresh_below_wraparound
    [PCCmd.prep "SELECT ?", PCCmd.prep "SELECT 1", PCCmd.close 0, PCCmd.prep "SELECT 2"]
    (by decide)

end MysqlMimic
